import Mathlib

/-!
Verification of the healthrix performance-calculation engine.

Shallow embedding of `src/healthrix_automation/models/standards.py`,
`src/healthrix_automation/models/activity.py` and
`src/healthrix_automation/engine/calculator.py`.

Python floats are modelled as rationals, Python dicts as association
lists preserving insertion order, raised exceptions as `Except`/`Option`
results.
-/

namespace Healthrix

/-! ## Date validation (Python `datetime.strptime(s, "%Y-%m-%d")`)

CPython parses the format with the regex fragments
year `\d\d\d\d`, month `1[0-2]|0[1-9]|[1-9]`, day `3[01]|[12]\d|0[1-9]|[1-9]`,
requires the whole string to match, and then constructs `datetime.date`,
which additionally enforces year >= 1 and day <= days-in-month. -/

def isLeapYear (y : Nat) : Bool :=
  y % 4 == 0 && (y % 100 != 0 || y % 400 == 0)

def daysInMonth (y m : Nat) : Nat :=
  if m == 2 then (if isLeapYear y then 29 else 28)
  else if m == 4 || m == 6 || m == 9 || m == 11 then 30
  else 31

/-- Split a character list at every dash, like `String.splitOn "-"`
(structurally recursive, so it evaluates definitionally). -/
def splitOnDash (cs : List Char) : List (List Char) :=
  match cs with
  | [] => [[]]
  | c :: rest =>
    let r := splitOnDash rest
    if c = '-' then [] :: r
    else
      match r with
      | [] => [[c]]
      | g :: gs => (c :: g) :: gs

def digitsToNat (cs : List Char) : Nat :=
  cs.foldl (fun acc c => acc * 10 + (c.toNat - '0'.toNat)) 0

/-- Success of `datetime.strptime(s, "%Y-%m-%d")`: exactly four year digits,
one or two month digits valued 1..12, one or two day digits valued 1..31,
and the (year, month, day) triple a real calendar date with year >= 1. -/
def strptimeYMD (s : String) : Option (Nat × Nat × Nat) :=
  match splitOnDash s.toList with
  | [ys, ms, ds] =>
    if ys.length == 4 && ys.all Char.isDigit
        && (ms.length == 1 || ms.length == 2) && ms.all Char.isDigit
        && (ds.length == 1 || ds.length == 2) && ds.all Char.isDigit then
      let y := digitsToNat ys
      let m := digitsToNat ms
      let d := digitsToNat ds
      if 1 ≤ y && 1 ≤ m && m ≤ 12 && 1 ≤ d && d ≤ 31 && d ≤ daysInMonth y m then
        some (y, m, d)
      else none
    else none
  | _ => none

/-- The strict reading of the spec phrase "valid YYYY-MM-DD calendar date":
zero-padded ISO-8601, i.e. exactly two month digits and two day digits.
Kept separate from `strptimeYMD` (the code) to compare the two. -/
def specValidDateYMD (s : String) : Bool :=
  match splitOnDash s.toList with
  | [ys, ms, ds] =>
    ys.length == 4 && ys.all Char.isDigit
      && ms.length == 2 && ms.all Char.isDigit
      && ds.length == 2 && ds.all Char.isDigit
      && (let y := digitsToNat ys
          let m := digitsToNat ms
          let d := digitsToNat ds
          1 ≤ y && 1 ≤ m && m ≤ 12 && 1 ≤ d && d ≤ daysInMonth y m)
  | _ => false

/-! ## Activity model (`models/activity.py`) -/

structure Employee where
  emp_id : String
  name : String
  department : Option String := none
  role : Option String := none
deriving DecidableEq, Repr

structure ActivityEntry where
  date : String
  emp_id : String
  task_name : String
  count : Int := 1
  patient_id : Option String := none
  duration_minutes : Option Int := none
  idle_hours : ℚ := 0
  conduct_flag : Int := 0
  notes : Option String := none
deriving DecidableEq, Repr

inductive ValidationError where
  | invalid_date
  | negative_count
  | invalid_conduct_flag
  | negative_idle_hours
deriving DecidableEq, Repr

/-- `ActivityEntry.__post_init__`: checks run in source order
(date, count, conduct flag, idle hours); the first failure is raised. -/
def ActivityEntry.validate (e : ActivityEntry) : Option ValidationError :=
  if !(strptimeYMD e.date).isSome then some .invalid_date
  else if e.count < 0 then some .negative_count
  else if e.conduct_flag != 0 && e.conduct_flag != 1 then some .invalid_conduct_flag
  else if e.idle_hours < 0 then some .negative_idle_hours
  else none

/-- Constructing an `ActivityEntry` (dataclass `__init__` + `__post_init__`):
returns the entry, or the validation error raised at construction time. -/
def mkActivityEntry (e : ActivityEntry) : Except ValidationError ActivityEntry :=
  match e.validate with
  | some err => .error err
  | none => .ok e

structure ActivityLog where
  activities : List ActivityEntry := []
  employees : List (String × Employee) := []
deriving Repr

/-- `ActivityLog.add_activity` on an entry that must first be constructed:
the exception aborts before the store is touched. -/
def ActivityLog.addConstructed (log : ActivityLog) (e : ActivityEntry) :
    Except ValidationError ActivityLog :=
  match mkActivityEntry e with
  | .error err => .error err
  | .ok v => .ok { log with activities := log.activities ++ [v] }

/-- Build a log by constructing and adding each raw entry in turn. -/
def buildActivityLog (raws : List ActivityEntry) : Except ValidationError ActivityLog :=
  raws.foldlM ActivityLog.addConstructed {}

/-! ## Standards database (`models/standards.py`) -/

structure TaskStandard where
  task_name : String
  ec_category : String
  base_score : Int
  target_daily : Int
  weight : ℚ := 9/10
deriving DecidableEq, Repr

/-- `TaskStandard.calculate_points`: `count * self.base_score`. -/
def TaskStandard.calculate_points (s : TaskStandard) (count : Int) : ℚ :=
  (count : ℚ) * (s.base_score : ℚ)

structure StandardsDatabase where
  standards : List (String × TaskStandard)
deriving Repr

/-- `StandardsDatabase.DEFAULT_STANDARDS`, in source order. -/
def defaultStandards : List (String × TaskStandard) :=
  [ ("Authorization Created", ⟨"Authorization Created", "EC-1", 45, 10, 9/10⟩),
    ("Authorization Status/FU", ⟨"Authorization Status/FU", "EC-1", 25, 15, 9/10⟩),
    ("Appeal", ⟨"Appeal", "EC-1", 10, 5, 9/10⟩),
    ("Eligibility Check", ⟨"Eligibility Check", "EC-2", 20, 25, 9/10⟩),
    ("Medication Refill", ⟨"Medication Refill", "EC-2", 20, 30, 9/10⟩),
    ("Pharmacy Call", ⟨"Pharmacy Call", "EC-2", 10, 10, 9/10⟩),
    ("Document Upload", ⟨"Document Upload", "EC-5", 10, 2, 9/10⟩),
    ("Patient Outreach", ⟨"Patient Outreach", "EC-3", 15, 20, 9/10⟩),
    ("Insurance Verification", ⟨"Insurance Verification", "EC-2", 25, 15, 9/10⟩),
    ("Claims Processing", ⟨"Claims Processing", "EC-4", 30, 12, 9/10⟩) ]

def defaultStandardsDatabase : StandardsDatabase :=
  ⟨defaultStandards⟩

/-- `StandardsDatabase.get_task_standard`: `self.standards.get(task_name)`. -/
def StandardsDatabase.get_task_standard (db : StandardsDatabase)
    (task_name : String) : Option TaskStandard :=
  (db.standards.find? (fun p => p.1 == task_name)).map (·.2)

/-- `StandardsDatabase.get_score`: points for a task and count,
`0.0` when the task is not registered. -/
def StandardsDatabase.get_score (db : StandardsDatabase)
    (task_name : String) (count : Int) : ℚ :=
  match db.get_task_standard task_name with
  | some standard => standard.calculate_points count
  | none => 0

/-! ## Performance calculation engine (`engine/calculator.py`) -/

structure PerformanceScore where
  emp_id : String
  name : String
  date : String
  total_task_points : ℚ
  productivity_percentage : ℚ
  weighted_prod_score : ℚ
  behavior_score_raw : ℚ
  weighted_behavior_score : ℚ
  final_performance : ℚ
  task_breakdown : List (String × Int)
  idle_hours : ℚ
  conduct_flag : Int
deriving DecidableEq, Repr

/-- Round a rational to the nearest integer, ties to even
(the semantics of the Python built-in `round`). -/
def roundHalfEven (q : ℚ) : Int :=
  let f := q.floor
  let frac := q - (f : ℚ)
  if frac < 1/2 then f
  else if 1/2 < frac then f + 1
  else if f % 2 == 0 then f else f + 1

/-- `round(q, 2)`. -/
def round2 (q : ℚ) : ℚ :=
  (roundHalfEven (q * 100) : ℚ) / 100

/-- The record produced by `PerformanceScore.to_dict`
(field `Productivity_%` is rendered `Productivity_Pct` and so on). -/
structure ScoreRecord where
  Emp_ID : String
  Name : String
  Date : String
  Total_Task_Points : ℚ
  Productivity_Pct : ℚ
  Weighted_Prod_Score : ℚ
  Behavior_Score_Raw : ℚ
  Weighted_Behavior_Score : ℚ
  Final_Performance_Pct : ℚ
  Idle_Hours : ℚ
  Conduct_Flag : Int
deriving DecidableEq, Repr

def PerformanceScore.to_dict (s : PerformanceScore) : ScoreRecord :=
  { Emp_ID := s.emp_id
    Name := s.name
    Date := s.date
    Total_Task_Points := s.total_task_points
    Productivity_Pct := round2 s.productivity_percentage
    Weighted_Prod_Score := round2 s.weighted_prod_score
    Behavior_Score_Raw := round2 s.behavior_score_raw
    Weighted_Behavior_Score := round2 s.weighted_behavior_score
    Final_Performance_Pct := round2 s.final_performance
    Idle_Hours := s.idle_hours
    Conduct_Flag := s.conduct_flag }

structure PerformanceCalculator where
  standards_db : StandardsDatabase
  daily_target : Int
deriving Repr

/-- `PerformanceCalculator.__init__`: `daily_target_points or DEFAULT_DAILY_TARGET`;
the Python `or` also replaces a passed `0` (falsy) by the default 400. -/
def mkPerformanceCalculator (db : StandardsDatabase)
    (daily_target_points : Option Int) : PerformanceCalculator :=
  { standards_db := db
    daily_target :=
      match daily_target_points with
      | some n => if n == 0 then 400 else n
      | none => 400 }

/-- `PerformanceCalculator.calculate_task_points`: fold over the entries,
summing `get_score` and accumulating the per-task-name count breakdown
(a dict preserving first-seen key order). -/
def addBreakdown (bd : List (String × Int)) (name : String) (c : Int) :
    List (String × Int) :=
  if bd.any (fun p => p.1 == name) then
    bd.map (fun p => if p.1 == name then (p.1, p.2 + c) else p)
  else bd ++ [(name, c)]

def PerformanceCalculator.calculate_task_points (self : PerformanceCalculator)
    (activities : List ActivityEntry) : ℚ × List (String × Int) :=
  activities.foldl
    (fun acc a =>
      (acc.1 + self.standards_db.get_score a.task_name a.count,
       addBreakdown acc.2 a.task_name a.count))
    (0, [])

/-- `PerformanceCalculator.calculate_productivity_score`:
`(productivity_pct, weighted_score)` with the 90 percent weight. -/
def PerformanceCalculator.calculate_productivity_score
    (self : PerformanceCalculator) (total_points : ℚ) : ℚ × ℚ :=
  let productivity_pct := total_points / (self.daily_target : ℚ) * 100
  (productivity_pct, productivity_pct * (9/10))

/-- `PerformanceCalculator.calculate_behavior_score`:
`(raw_behavior_score, weighted_score)` with the 10 percent weight. -/
def PerformanceCalculator.calculate_behavior_score
    (idle_hours : ℚ) (conduct_flag : Int) : ℚ × ℚ :=
  let base_score : ℚ := 100
  let base_score := base_score - idle_hours * 10
  let base_score := base_score - (conduct_flag : ℚ) * 50
  let base_score := max base_score 0
  (base_score, base_score * (1/10))

/-- Python `max` over a nonempty list given as head and tail. -/
def pyMax {α : Type} [LinearOrder α] (x : α) (xs : List α) : α :=
  xs.foldl max x

/-- `PerformanceCalculator.calculate_employee_performance`. -/
def PerformanceCalculator.calculate_employee_performance
    (self : PerformanceCalculator) (emp_id target_date : String)
    (log : ActivityLog) : Option PerformanceScore :=
  match log.activities.filter (fun a => a.emp_id == emp_id && a.date == target_date) with
  | [] => none
  | a₀ :: rest =>
    let emp_name :=
      match log.employees.find? (fun p => p.1 == emp_id) with
      | some p => p.2.name
      | none => "Unknown"
    let tp := self.calculate_task_points (a₀ :: rest)
    let prod := self.calculate_productivity_score tp.1
    let idle_hours := pyMax a₀.idle_hours (rest.map (·.idle_hours))
    let conduct_flag := pyMax a₀.conduct_flag (rest.map (·.conduct_flag))
    let behavior := PerformanceCalculator.calculate_behavior_score idle_hours conduct_flag
    some
      { emp_id := emp_id
        name := emp_name
        date := target_date
        total_task_points := tp.1
        productivity_percentage := prod.1
        weighted_prod_score := prod.2
        behavior_score_raw := behavior.1
        weighted_behavior_score := behavior.2
        final_performance := prod.2 + behavior.2
        task_breakdown := tp.2
        idle_hours := idle_hours
        conduct_flag := conduct_flag }

/-- The key of the sort `scores.sort(key=lambda x: x.final_performance, reverse=True)`. -/
def byFinalPerformanceDesc (a b : PerformanceScore) : Bool :=
  decide (b.final_performance ≤ a.final_performance)

/-- Python `sorted` on strings: ascending lexicographic order. -/
def stringAsc (a b : String) : Bool :=
  decide (a ≤ b)

/-- `PerformanceCalculator.calculate_all_employees`: one score per distinct
employee id seen on the date, then an in-place sort descending by
`final_performance` (Python `list.sort` is a stable merge sort). -/
def PerformanceCalculator.calculate_all_employees (self : PerformanceCalculator)
    (target_date : String) (log : ActivityLog) : List PerformanceScore :=
  let emp_ids :=
    ((log.activities.filter (fun a => a.date == target_date)).map (·.emp_id)).eraseDups
  let scores := emp_ids.filterMap
    (fun e => self.calculate_employee_performance e target_date log)
  scores.mergeSort byFinalPerformanceDesc

/-- `PerformanceCalculator.calculate_date_range`: distinct dates in the
inclusive range, visited in ascending order; the result dict therefore has
its keys in ascending insertion order. -/
def PerformanceCalculator.calculate_date_range (self : PerformanceCalculator)
    (start_date end_date : String) (log : ActivityLog) :
    List (String × List PerformanceScore) :=
  let dates :=
    ((log.activities.filter
        (fun a => decide (start_date ≤ a.date) && decide (a.date ≤ end_date))).map
      (·.date)).eraseDups
  (dates.mergeSort stringAsc).map
    (fun d => (d, self.calculate_all_employees d log))

/-- `PerformanceCalculator.get_employee_trend`: the rows of the returned
DataFrame, one `to_dict` record per date with a score, dates ascending. -/
def PerformanceCalculator.get_employee_trend (self : PerformanceCalculator)
    (emp_id start_date end_date : String) (log : ActivityLog) :
    List ScoreRecord :=
  let dates :=
    ((log.activities.filter
        (fun a => a.emp_id == emp_id
          && decide (start_date ≤ a.date) && decide (a.date ≤ end_date))).map
      (·.date)).eraseDups
  (dates.mergeSort stringAsc).filterMap
    (fun d => (self.calculate_employee_performance emp_id d log).map
      PerformanceScore.to_dict)

/-- `PerformanceCalculator.set_daily_target`, state-passing: the `ValueError`
for a non-positive target is raised before any mutation, so the error case
returns the calculator unchanged. -/
def PerformanceCalculator.set_daily_target (self : PerformanceCalculator)
    (new_target : Int) : Option String × PerformanceCalculator :=
  if new_target ≤ 0 then (some "Daily target must be positive", self)
  else (none, { self with daily_target := new_target })

structure ProductivityStatistics where
  count : Nat
  avg_performance : ℚ
  avg_productivity : ℚ
  avg_behavior : ℚ
  top_performer : Option String
  needs_improvement : Option String
deriving DecidableEq, Repr

/-- `PerformanceCalculator.get_productivity_statistics`: the empty list is
answered by the early guard; averages and the first/last lookups only run
on a nonempty list. -/
def PerformanceCalculator.get_productivity_statistics
    (scores : List PerformanceScore) : ProductivityStatistics :=
  match scores with
  | [] =>
    { count := 0
      avg_performance := 0
      avg_productivity := 0
      avg_behavior := 0
      top_performer := none
      needs_improvement := none }
  | s₀ :: rest =>
    let performances := (s₀ :: rest).map (·.final_performance)
    let productivities := (s₀ :: rest).map (·.weighted_prod_score)
    let behaviors := (s₀ :: rest).map (·.weighted_behavior_score)
    { count := (s₀ :: rest).length
      avg_performance := performances.sum / (performances.length : ℚ)
      avg_productivity := productivities.sum / (productivities.length : ℚ)
      avg_behavior := behaviors.sum / (behaviors.length : ℚ)
      top_performer := some s₀.name
      needs_improvement := some (rest.getLastD s₀).name }

/-! ## Concrete fixtures used by the witnesses -/

def logEx : ActivityLog :=
  { activities :=
      [ { date := "2024-01-15", emp_id := "E1",
          task_name := "Authorization Created", count := 4, idle_hours := 3/2 },
        { date := "2024-01-15", emp_id := "E1",
          task_name := "Appeal", count := 2, idle_hours := 5/2, conduct_flag := 1 },
        { date := "2024-01-15", emp_id := "E2",
          task_name := "Eligibility Check", count := 10 },
        { date := "2024-01-16", emp_id := "E1",
          task_name := "Appeal", count := 1 } ],
    employees :=
      [ ("E1", { emp_id := "E1", name := "Alice" }),
        ("E2", { emp_id := "E2", name := "Bob" }) ] }

def calcEx : PerformanceCalculator :=
  mkPerformanceCalculator defaultStandardsDatabase none

/-- The score of employee E1 on 2024-01-15 in `logEx`, as computed by
`calculate_employee_performance`. -/
def scoreEx : PerformanceScore :=
  { emp_id := "E1"
    name := "Alice"
    date := "2024-01-15"
    total_task_points := 200
    productivity_percentage := 50
    weighted_prod_score := 45
    behavior_score_raw := 25
    weighted_behavior_score := 5/2
    final_performance := 95/2
    task_breakdown := [("Authorization Created", 4), ("Appeal", 2)]
    idle_hours := 5/2
    conduct_flag := 1 }

/-- A date Python `strptime("%Y-%m-%d")` accepts although it is not
zero-padded ISO `YYYY-MM-DD`. -/
def entryUnpadded : ActivityEntry :=
  { date := "2023-1-5", emp_id := "E1", task_name := "Appeal" }

def entryBadCount : ActivityEntry :=
  { date := "2024-01-15", emp_id := "E1", task_name := "Appeal", count := -1 }

def rawsEx : List ActivityEntry :=
  [ { date := "2024-01-15", emp_id := "E1", task_name := "Appeal" },
    { date := "2024-01-16", emp_id := "E2", task_name := "Pharmacy Call", count := 3 } ]

def builtLogEx : ActivityLog :=
  { activities := rawsEx, employees := [] }

/-! ## Helper lemmas -/

theorem self_le_pyMax {α : Type} [LinearOrder α] (x : α) (xs : List α) :
    x ≤ pyMax x xs := by
  induction xs generalizing x with
  | nil => exact le_rfl
  | cons y ys ih => exact le_trans (le_max_left x y) (ih (max x y))

theorem mem_le_pyMax {α : Type} [LinearOrder α] {y : α} (x : α) {xs : List α}
    (hy : y ∈ xs) : y ≤ pyMax x xs := by
  induction xs generalizing x with
  | nil => cases hy
  | cons z zs ih =>
    rcases List.mem_cons.mp hy with h | h
    · subst h
      exact le_trans (le_max_right x y) (self_le_pyMax (max x y) zs)
    · exact ih (max x z) h

theorem pyMax_mem {α : Type} [LinearOrder α] (x : α) (xs : List α) :
    pyMax x xs = x ∨ pyMax x xs ∈ xs := by
  induction xs generalizing x with
  | nil => exact Or.inl rfl
  | cons y ys ih =>
    rcases ih (max x y) with h | h
    · rcases max_choice x y with h1 | h1
      · exact Or.inl (by rw [show pyMax x (y :: ys) = pyMax (max x y) ys from rfl, h, h1])
      · refine Or.inr ?_
        rw [show pyMax x (y :: ys) = pyMax (max x y) ys from rfl, h, h1]
        exact List.mem_cons_self y ys
    · exact Or.inr (List.mem_cons_of_mem y h)

/-- The score returned for a given employee and date carries that date. -/
theorem score_date_of_some (self : PerformanceCalculator)
    (emp_id target_date : String) (log : ActivityLog) (s : PerformanceScore)
    (h : self.calculate_employee_performance emp_id target_date log = some s) :
    s.date = target_date := by
  unfold PerformanceCalculator.calculate_employee_performance at h
  split at h
  · exact absurd h (by simp)
  · simp only [Option.some.injEq] at h
    subst h
    rfl

theorem byFinalPerformanceDesc_trans :
    ∀ a b c : PerformanceScore, byFinalPerformanceDesc a b →
      byFinalPerformanceDesc b c → byFinalPerformanceDesc a c := by
  intro a b c hab hbc
  simp only [byFinalPerformanceDesc, decide_eq_true_eq] at *
  exact le_trans hbc hab

theorem byFinalPerformanceDesc_total :
    ∀ a b : PerformanceScore, byFinalPerformanceDesc a b || byFinalPerformanceDesc b a := by
  intro a b
  simp only [byFinalPerformanceDesc, Bool.or_eq_true, decide_eq_true_eq]
  exact le_total b.final_performance a.final_performance

theorem stringAsc_trans :
    ∀ a b c : String, stringAsc a b → stringAsc b c → stringAsc a c := by
  intro a b c hab hbc
  simp only [stringAsc, decide_eq_true_eq] at *
  exact le_trans hab hbc

theorem stringAsc_total :
    ∀ a b : String, stringAsc a b || stringAsc b a := by
  intro a b
  simp only [stringAsc, Bool.or_eq_true, decide_eq_true_eq]
  exact le_total a b

/-! ## Claims -/

/-- C1: for every employee/date with at least one matching activity entry,
`calculate_employee_performance` returns a score whose fields satisfy
`productivity_percentage = total_task_points / daily_target * 100` with
`daily_target` the configured constant (default 400),
`weighted_prod_score = productivity_percentage * 0.90` with no upper clamp,
and `final_performance = weighted_prod_score + weighted_behavior_score`,
with no rounding inside the calculation. -/
theorem calculate_employee_performance_formula :
    (∀ db : StandardsDatabase, (mkPerformanceCalculator db none).daily_target = 400)
    ∧ ∀ (self : PerformanceCalculator) (emp_id target_date : String)
        (log : ActivityLog) (s : PerformanceScore),
        self.calculate_employee_performance emp_id target_date log = some s →
        s.productivity_percentage = s.total_task_points / (self.daily_target : ℚ) * 100
        ∧ s.weighted_prod_score = s.productivity_percentage * (9/10)
        ∧ s.final_performance = s.weighted_prod_score + s.weighted_behavior_score := by
  refine ⟨fun db => rfl, fun self emp_id target_date log s h => ?_⟩
  unfold PerformanceCalculator.calculate_employee_performance at h
  split at h
  · exact absurd h (by simp)
  · simp only [Option.some.injEq] at h
    subst h
    exact ⟨rfl, rfl, rfl⟩

/-- Witness for C1 at a concrete log: E1 on 2024-01-15. -/
theorem calculate_employee_performance_formula_witness :
    scoreEx.productivity_percentage
        = scoreEx.total_task_points / (calcEx.daily_target : ℚ) * 100
    ∧ scoreEx.weighted_prod_score = scoreEx.productivity_percentage * (9/10)
    ∧ scoreEx.final_performance
        = scoreEx.weighted_prod_score + scoreEx.weighted_behavior_score :=
  calculate_employee_performance_formula.2 calcEx "E1" "2024-01-15" logEx scoreEx
    (by
      simp [calcEx, logEx, scoreEx, mkPerformanceCalculator,
        PerformanceCalculator.calculate_employee_performance,
        PerformanceCalculator.calculate_task_points,
        StandardsDatabase.get_score, StandardsDatabase.get_task_standard,
        defaultStandardsDatabase, defaultStandards, TaskStandard.calculate_points,
        addBreakdown, pyMax, PerformanceCalculator.calculate_productivity_score,
        PerformanceCalculator.calculate_behavior_score, List.filter, List.foldl,
        List.find?, Option.map]
      norm_num)

/-- C2: for idle_hours >= 0 and conduct_flag in 0..1, the raw behavior score
is `max 0 (100 - idle_hours * 10 - conduct_flag * 50)`, lies in [0, 100],
and the weighted score is the raw score times 0.10. -/
theorem calculate_behavior_score_spec :
    ∀ (idle_hours : ℚ) (conduct_flag : Int),
      0 ≤ idle_hours → (conduct_flag = 0 ∨ conduct_flag = 1) →
      (PerformanceCalculator.calculate_behavior_score idle_hours conduct_flag).1
          = max 0 (100 - idle_hours * 10 - (conduct_flag : ℚ) * 50)
      ∧ 0 ≤ (PerformanceCalculator.calculate_behavior_score idle_hours conduct_flag).1
      ∧ (PerformanceCalculator.calculate_behavior_score idle_hours conduct_flag).1 ≤ 100
      ∧ (PerformanceCalculator.calculate_behavior_score idle_hours conduct_flag).2
          = (PerformanceCalculator.calculate_behavior_score idle_hours conduct_flag).1
            * (1/10) := by
  intro idle_hours conduct_flag hidle hflag
  have hflagq : (0 : ℚ) ≤ (conduct_flag : ℚ) := by
    rcases hflag with h | h <;> simp [h]
  unfold PerformanceCalculator.calculate_behavior_score
  refine ⟨max_comm _ _, le_max_right _ _, ?_, rfl⟩
  refine max_le ?_ (by norm_num)
  have h10 : 0 ≤ idle_hours * 10 := by positivity
  have h50 : 0 ≤ (conduct_flag : ℚ) * 50 := by positivity
  linarith

/-- Witness for C2 at idle_hours = 3, conduct_flag = 1. -/
theorem calculate_behavior_score_spec_witness :
    (PerformanceCalculator.calculate_behavior_score 3 1).1
        = max 0 (100 - (3 : ℚ) * 10 - ((1 : Int) : ℚ) * 50)
    ∧ 0 ≤ (PerformanceCalculator.calculate_behavior_score 3 1).1
    ∧ (PerformanceCalculator.calculate_behavior_score 3 1).1 ≤ 100
    ∧ (PerformanceCalculator.calculate_behavior_score 3 1).2
        = (PerformanceCalculator.calculate_behavior_score 3 1).1 * (1/10) :=
  calculate_behavior_score_spec 3 1 (by norm_num) (Or.inr rfl)

/-- C3: the single-employee calculation returns the "no score" sentinel
exactly when there is no matching activity entry for the employee and date;
with at least one matching entry it returns a score. -/
theorem calculate_employee_performance_none_iff :
    ∀ (self : PerformanceCalculator) (emp_id target_date : String) (log : ActivityLog),
      self.calculate_employee_performance emp_id target_date log = none
      ↔ log.activities.filter (fun a => a.emp_id == emp_id && a.date == target_date)
          = [] := by
  intro self emp_id target_date log
  unfold PerformanceCalculator.calculate_employee_performance
  split
  · rename_i heq
    simp [heq]
  · rename_i a₀ rest heq
    simp [heq]

/-- C4: `get_score` is `count * base_score` for a registered task and `0` for
an unregistered one; in particular a zero count scores zero, and the lookup
never fails. -/
theorem get_score_spec :
    (∀ (db : StandardsDatabase) (task_name : String) (count : Int) (std : TaskStandard),
        db.get_task_standard task_name = some std →
        db.get_score task_name count = (count : ℚ) * (std.base_score : ℚ))
    ∧ (∀ (db : StandardsDatabase) (task_name : String) (count : Int),
        db.get_task_standard task_name = none →
        db.get_score task_name count = 0)
    ∧ (∀ (db : StandardsDatabase) (task_name : String),
        db.get_score task_name 0 = 0) := by
  refine ⟨?_, ?_, ?_⟩
  · intro db task_name count std h
    unfold StandardsDatabase.get_score
    rw [h]
    rfl
  · intro db task_name count h
    unfold StandardsDatabase.get_score
    rw [h]
  · intro db task_name
    unfold StandardsDatabase.get_score
    cases db.get_task_standard task_name with
    | none => rfl
    | some std => simp [TaskStandard.calculate_points]

/-- Witness for C4: the registered "Appeal" task at count 3 and an
unregistered task name. -/
theorem get_score_spec_witness :
    defaultStandardsDatabase.get_score "Appeal" 3 = ((3 : Int) : ℚ) * ((10 : Int) : ℚ)
    ∧ defaultStandardsDatabase.get_score "Unregistered Task" 7 = 0 :=
  ⟨get_score_spec.1 defaultStandardsDatabase "Appeal" 3
      ⟨"Appeal", "EC-1", 10, 5, 9/10⟩ rfl,
    get_score_spec.2.1 defaultStandardsDatabase "Unregistered Task" 7 rfl⟩

/-- C8: `set_daily_target` errors exactly on a non-positive target, leaving
the calculator unchanged in that case, and installs a positive target. -/
theorem set_daily_target_spec :
    ∀ (self : PerformanceCalculator) (new_target : Int),
      ((self.set_daily_target new_target).1.isSome ↔ new_target ≤ 0)
      ∧ (new_target ≤ 0 →
          self.set_daily_target new_target
            = (some "Daily target must be positive", self))
      ∧ (0 < new_target →
          self.set_daily_target new_target
            = (none, { self with daily_target := new_target })) := by
  intro self new_target
  unfold PerformanceCalculator.set_daily_target
  by_cases h : new_target ≤ 0
  · simp [h]
  · simp [h]

/-- Witness for C8 at the default calculator and targets -3 and 500. -/
theorem set_daily_target_spec_witness :
    calcEx.set_daily_target (-3) = (some "Daily target must be positive", calcEx)
    ∧ calcEx.set_daily_target 500 = (none, { calcEx with daily_target := 500 }) :=
  ⟨(set_daily_target_spec calcEx (-3)).2.1 (by decide),
    (set_daily_target_spec calcEx 500).2.2 (by decide)⟩

/-- C9: statistics over an empty score list give count 0, zero averages and
no top or needs-improvement performer; the averaging divisions sit in the
nonempty branch, which the empty guard never reaches. -/
theorem get_productivity_statistics_empty :
    PerformanceCalculator.get_productivity_statistics []
      = { count := 0
          avg_performance := 0
          avg_productivity := 0
          avg_behavior := 0
          top_performer := none
          needs_improvement := none } := rfl

/-- C5: with several entries for the same employee and date, the score takes
the maximum `idle_hours` and the maximum `conduct_flag` over the matching
entries: every matching entry is bounded by the stored values and each
stored value is attained by some matching entry. -/
theorem daily_metrics_take_max :
    ∀ (self : PerformanceCalculator) (emp_id target_date : String)
      (log : ActivityLog) (s : PerformanceScore),
      self.calculate_employee_performance emp_id target_date log = some s →
      (∀ a ∈ log.activities.filter (fun a => a.emp_id == emp_id && a.date == target_date),
          a.idle_hours ≤ s.idle_hours ∧ a.conduct_flag ≤ s.conduct_flag)
      ∧ (∃ a ∈ log.activities.filter (fun a => a.emp_id == emp_id && a.date == target_date),
          s.idle_hours = a.idle_hours)
      ∧ (∃ a ∈ log.activities.filter (fun a => a.emp_id == emp_id && a.date == target_date),
          s.conduct_flag = a.conduct_flag) := by
  intro self emp_id target_date log s h
  unfold PerformanceCalculator.calculate_employee_performance at h
  split at h
  · exact absurd h (by simp)
  · rename_i a₀ rest heq
    rw [heq]
    simp only [Option.some.injEq] at h
    subst h
    refine ⟨?_, ?_, ?_⟩
    · intro a ha
      rcases List.mem_cons.mp ha with h | h
      · subst h
        exact ⟨self_le_pyMax _ _, self_le_pyMax _ _⟩
      · exact ⟨mem_le_pyMax _ (List.mem_map_of_mem _ h),
          mem_le_pyMax _ (List.mem_map_of_mem _ h)⟩
    · rcases pyMax_mem a₀.idle_hours (rest.map (·.idle_hours)) with hm | hm
      · exact ⟨a₀, List.mem_cons_self a₀ rest, hm⟩
      · obtain ⟨a, ha, haeq⟩ := List.mem_map.mp hm
        exact ⟨a, List.mem_cons_of_mem a₀ ha, haeq.symm⟩
    · rcases pyMax_mem a₀.conduct_flag (rest.map (·.conduct_flag)) with hm | hm
      · exact ⟨a₀, List.mem_cons_self a₀ rest, hm⟩
      · obtain ⟨a, ha, haeq⟩ := List.mem_map.mp hm
        exact ⟨a, List.mem_cons_of_mem a₀ ha, haeq.symm⟩

/-- Witness for C5: E1 on 2024-01-15 has two entries; the score stores the
larger idle hours (5/2) and the larger conduct flag (1). -/
theorem daily_metrics_take_max_witness :
    (∀ a ∈ logEx.activities.filter (fun a => a.emp_id == "E1" && a.date == "2024-01-15"),
        a.idle_hours ≤ scoreEx.idle_hours ∧ a.conduct_flag ≤ scoreEx.conduct_flag)
    ∧ (∃ a ∈ logEx.activities.filter (fun a => a.emp_id == "E1" && a.date == "2024-01-15"),
        scoreEx.idle_hours = a.idle_hours)
    ∧ (∃ a ∈ logEx.activities.filter (fun a => a.emp_id == "E1" && a.date == "2024-01-15"),
        scoreEx.conduct_flag = a.conduct_flag) :=
  daily_metrics_take_max calcEx "E1" "2024-01-15" logEx scoreEx
    (by
      simp [calcEx, logEx, scoreEx, mkPerformanceCalculator,
        PerformanceCalculator.calculate_employee_performance,
        PerformanceCalculator.calculate_task_points,
        StandardsDatabase.get_score, StandardsDatabase.get_task_standard,
        defaultStandardsDatabase, defaultStandards, TaskStandard.calculate_points,
        addBreakdown, pyMax, PerformanceCalculator.calculate_productivity_score,
        PerformanceCalculator.calculate_behavior_score, List.filter, List.foldl,
        List.find?, Option.map]
      norm_num)

/-- C6: `calculate_all_employees` returns its scores sorted descending by
`final_performance`; `get_employee_trend` rows are ordered ascending by
date; `calculate_date_range` lists its date keys in ascending order. -/
theorem output_orderings :
    (∀ (self : PerformanceCalculator) (target_date : String) (log : ActivityLog),
        (self.calculate_all_employees target_date log).Pairwise
          (fun a b => b.final_performance ≤ a.final_performance))
    ∧ (∀ (self : PerformanceCalculator) (emp_id start_date end_date : String)
          (log : ActivityLog),
        ((self.get_employee_trend emp_id start_date end_date log).map
            (·.Date)).Pairwise (· ≤ ·))
    ∧ (∀ (self : PerformanceCalculator) (start_date end_date : String)
          (log : ActivityLog),
        ((self.calculate_date_range start_date end_date log).map
            (·.1)).Pairwise (· ≤ ·)) := by
  refine ⟨?_, ?_, ?_⟩
  · intro self target_date log
    unfold PerformanceCalculator.calculate_all_employees
    exact (List.sorted_mergeSort byFinalPerformanceDesc_trans
      byFinalPerformanceDesc_total _).imp (fun h => of_decide_eq_true h)
  · intro self emp_id start_date end_date log
    unfold PerformanceCalculator.get_employee_trend
    rw [List.pairwise_map]
    refine List.Pairwise.filterMap _ ?_
      ((List.sorted_mergeSort stringAsc_trans stringAsc_total _).imp
        (fun h => of_decide_eq_true h))
    intro d d' hdd r hr r' hr'
    obtain ⟨s, hs, hsr⟩ := Option.map_eq_some'.mp hr
    obtain ⟨s', hs', hsr'⟩ := Option.map_eq_some'.mp hr'
    have h1 : r.Date = d := by
      rw [← hsr]
      exact score_date_of_some self emp_id d log s hs
    have h2 : r'.Date = d' := by
      rw [← hsr']
      exact score_date_of_some self emp_id d' log s' hs'
    rw [h1, h2]
    exact hdd
  · intro self start_date end_date log
    unfold PerformanceCalculator.calculate_date_range
    rw [List.pairwise_map, List.pairwise_map]
    exact (List.sorted_mergeSort stringAsc_trans stringAsc_total _).imp
      (fun h => of_decide_eq_true h)

/-- C7 counterexample: the date "2023-1-5" is not a valid zero-padded
YYYY-MM-DD string, yet constructing an `ActivityEntry` with it raises no
error, so "raises if and only if the date string is not a valid YYYY-MM-DD
calendar date (or a field is out of range)" fails at this input. -/
theorem activity_validation_claim_counterexample :
    ¬ ((∃ err, mkActivityEntry entryUnpadded = .error err)
        ↔ (specValidDateYMD entryUnpadded.date = false
            ∨ entryUnpadded.count < 0
            ∨ entryUnpadded.idle_hours < 0
            ∨ (entryUnpadded.conduct_flag ≠ 0 ∧ entryUnpadded.conduct_flag ≠ 1))) := by
  intro h
  obtain ⟨err, herr⟩ := h.mpr (Or.inl (by decide))
  have hok : mkActivityEntry entryUnpadded = .ok entryUnpadded := rfl
  rw [hok] at herr
  exact Except.noConfusion herr

/-- C7 (amended): construction raises exactly when the date fails Python
`strptime("%Y-%m-%d")` (which also accepts unpadded one-digit months and
days), the count is negative, the idle hours are negative, or the conduct
flag is outside 0..1; each error identifies its violated field; a log built
through construction holds only validated entries. -/
theorem activity_validation_correct :
    (∀ e : ActivityEntry,
      ((∃ err, mkActivityEntry e = .error err)
        ↔ ((strptimeYMD e.date).isSome = false ∨ e.count < 0 ∨ e.idle_hours < 0
            ∨ (e.conduct_flag ≠ 0 ∧ e.conduct_flag ≠ 1)))
      ∧ (mkActivityEntry e = .error .invalid_date → (strptimeYMD e.date).isSome = false)
      ∧ (mkActivityEntry e = .error .negative_count → e.count < 0)
      ∧ (mkActivityEntry e = .error .invalid_conduct_flag
          → e.conduct_flag ≠ 0 ∧ e.conduct_flag ≠ 1)
      ∧ (mkActivityEntry e = .error .negative_idle_hours → e.idle_hours < 0)
      ∧ (∀ v, mkActivityEntry e = .ok v → v = e))
    ∧ (∀ (raws : List ActivityEntry) (log : ActivityLog),
        buildActivityLog raws = .ok log →
        ∀ a ∈ log.activities, a.validate = none) := by
  constructor
  · intro e
    unfold mkActivityEntry ActivityEntry.validate
    by_cases h1 : (strptimeYMD e.date).isSome
    · by_cases h2 : e.count < 0
      · simp [h1, h2]
      · by_cases h3 : (e.conduct_flag != 0 && e.conduct_flag != 1) = true
        · have hprop : e.conduct_flag ≠ 0 ∧ e.conduct_flag ≠ 1 := by
            simpa using h3
          simp [h1, h2, h3]
          tauto
        · have hprop : ¬(e.conduct_flag ≠ 0 ∧ e.conduct_flag ≠ 1) := by
            simpa using h3
          by_cases h4 : e.idle_hours < 0
          · simp [h1, h2, h3, h4]
          · simp [h1, h2, h3, h4]
            tauto
    · simp [h1]
  · intro raws log h
    have aux : ∀ (rs : List ActivityEntry) (log₀ logF : ActivityLog),
        List.foldlM ActivityLog.addConstructed log₀ rs = .ok logF →
        (∀ a ∈ log₀.activities, a.validate = none) →
        ∀ a ∈ logF.activities, a.validate = none := by
      intro rs
      induction rs with
      | nil =>
        intro log₀ logF hfold h0
        simp only [List.foldlM_nil] at hfold
        cases hfold
        exact h0
      | cons r rest ih =>
        intro log₀ logF hfold h0
        rw [List.foldlM_cons] at hfold
        cases hadd : ActivityLog.addConstructed log₀ r with
        | error err =>
          rw [hadd] at hfold
          exact Except.noConfusion hfold
        | ok l₁ =>
          rw [hadd] at hfold
          refine ih l₁ logF hfold ?_
          unfold ActivityLog.addConstructed mkActivityEntry at hadd
          cases hv : r.validate with
          | some err =>
            rw [hv] at hadd
            exact absurd hadd (by simp)
          | none =>
            rw [hv] at hadd
            simp only [Except.ok.injEq] at hadd
            subst hadd
            intro a ha
            rcases List.mem_append.mp ha with h | h
            · exact h0 a h
            · rw [List.mem_singleton.mp h]
              exact hv
    exact aux raws {} log h (by intro a ha; exact absurd ha (List.not_mem_nil a))

/-- Witness for C7 (amended): a negative count is rejected with the
count-naming error, and a log built from two valid raw entries holds only
validated entries. -/
theorem activity_validation_correct_witness :
    entryBadCount.count < 0 ∧ ∀ a ∈ builtLogEx.activities, a.validate = none :=
  ⟨(activity_validation_correct.1 entryBadCount).2.2.1 rfl,
    activity_validation_correct.2 rawsEx builtLogEx rfl⟩

/-- C10: the behavior score is monotone non-increasing in its penalty
inputs: more idle hours never increase the raw or weighted score, and a
raised conduct flag never increases them. -/
theorem calculate_behavior_score_monotone :
    (∀ (conduct_flag : Int) (idle_a idle_b : ℚ),
        0 ≤ idle_a → idle_a ≤ idle_b →
        (PerformanceCalculator.calculate_behavior_score idle_b conduct_flag).1
            ≤ (PerformanceCalculator.calculate_behavior_score idle_a conduct_flag).1
        ∧ (PerformanceCalculator.calculate_behavior_score idle_b conduct_flag).2
            ≤ (PerformanceCalculator.calculate_behavior_score idle_a conduct_flag).2)
    ∧ (∀ idle_hours : ℚ, 0 ≤ idle_hours →
        (PerformanceCalculator.calculate_behavior_score idle_hours 1).1
            ≤ (PerformanceCalculator.calculate_behavior_score idle_hours 0).1
        ∧ (PerformanceCalculator.calculate_behavior_score idle_hours 1).2
            ≤ (PerformanceCalculator.calculate_behavior_score idle_hours 0).2) := by
  constructor
  · intro conduct_flag idle_a idle_b h0 hab
    simp only [PerformanceCalculator.calculate_behavior_score]
    have hraw : max (100 - idle_b * 10 - (conduct_flag : ℚ) * 50) 0
        ≤ max (100 - idle_a * 10 - (conduct_flag : ℚ) * 50) 0 := by
      refine max_le_max ?_ le_rfl
      have : idle_a * 10 ≤ idle_b * 10 :=
        mul_le_mul_of_nonneg_right hab (by norm_num)
      linarith
    exact ⟨hraw, mul_le_mul_of_nonneg_right hraw (by norm_num)⟩
  · intro idle_hours h0
    simp only [PerformanceCalculator.calculate_behavior_score]
    have hraw : max (100 - idle_hours * 10 - ((1 : Int) : ℚ) * 50) 0
        ≤ max (100 - idle_hours * 10 - ((0 : Int) : ℚ) * 50) 0 := by
      refine max_le_max ?_ le_rfl
      push_cast
      linarith
    exact ⟨hraw, mul_le_mul_of_nonneg_right hraw (by norm_num)⟩

/-- Witness for C10 at idle hours 1 against 2 with flag 0, and flag 1
against flag 0 at idle hours 4. -/
theorem calculate_behavior_score_monotone_witness :
    ((PerformanceCalculator.calculate_behavior_score 2 0).1
        ≤ (PerformanceCalculator.calculate_behavior_score 1 0).1
      ∧ (PerformanceCalculator.calculate_behavior_score 2 0).2
        ≤ (PerformanceCalculator.calculate_behavior_score 1 0).2)
    ∧ ((PerformanceCalculator.calculate_behavior_score 4 1).1
        ≤ (PerformanceCalculator.calculate_behavior_score 4 0).1
      ∧ (PerformanceCalculator.calculate_behavior_score 4 1).2
        ≤ (PerformanceCalculator.calculate_behavior_score 4 0).2) :=
  ⟨calculate_behavior_score_monotone.1 0 1 2 (by norm_num) (by norm_num),
    calculate_behavior_score_monotone.2 4 (by norm_num)⟩

end Healthrix
